import Mathlib

/-!
Shallow embedding of `builder/vmware/driver.go` (package `vmware`): the
`Fusion5Driver` that shells out to the VMware Fusion command-line tools.

External effects (subprocess execution via `os/exec`, filesystem stat via
`os.Stat`, working-directory lookup via `os.Getwd`) are modelled by an `Env`
record of pure oracles.  Go errors are modelled by the inductive `GoErr`;
`none`/`some` of `Option GoErr` stands for Go's nil / non-nil `error`.
Each driver operation additionally returns the list of subprocess commands
it invoked (`trace`) and the receiver state after the call (`drv`), so that
argument-ordering and frame claims are statable.
-/

/-- Model of a Go `error` value as it occurs in this file: an
`exec.ExitError` (carrying only the exit status, as `cmd.Run` returns it),
an `fs.ErrNotExist`-classified stat error, a permission stat error, or any
other error with a message (also used for `fmt.Errorf` results). -/
inductive GoErr where
  | exitError (code : Nat)
  | notExist (path : String)
  | permission (path : String)
  | other (msg : String)
deriving DecidableEq, Repr

/-- The text `err.Error()` would produce in Go for each modelled error. -/
def GoErr.message : GoErr → String
  | .exitError code => "exit status " ++ toString code
  | .notExist path => "stat " ++ path ++ ": no such file or directory"
  | .permission path => "stat " ++ path ++ ": permission denied"
  | .other msg => msg

/-- Model of Go's `os.IsNotExist` on the modelled errors. -/
def GoErr.isNotExist : GoErr → Bool
  | .notExist _ => true
  | _ => false

/-- A subprocess command: executable path and the arguments after argv0,
as passed to `exec.Command(name, args...)`. -/
structure Cmd where
  path : String
  args : List String
deriving DecidableEq, Repr

/-- Outcome of running one subprocess: captured stdout, captured stderr,
and the error from `cmd.Run` (`none` means exit status zero). -/
structure RunResult where
  stdout : String
  stderr : String
  exit : Option GoErr
deriving DecidableEq, Repr

/-- The external world the driver interacts with: subprocess execution,
`os.Stat` (where `none` means the stat succeeded, i.e. the path exists and
is accessible), and `os.Getwd`. -/
structure Env where
  run : Cmd → RunResult
  stat : String → Option GoErr
  getwd : Except GoErr String

/-- Splits a character list at every occurrence of `sep`; the groups keep
their order and drop the separators, and `n` separators give `n + 1`
groups.  This is the semantics of Go `strings.Split` (and of
`String.splitOn`) for a one-character separator, stated structurally. -/
def splitChar (sep : Char) : List Char → List (List Char)
  | [] => [[]]
  | c :: cs =>
    match splitChar sep cs with
    | [] => [[]]
    | g :: gs => if c = sep then [] :: g :: gs else (c :: g) :: gs

/-- Go `strings.Split s sep` for a one-character separator. -/
def goSplit (s : String) (sep : Char) : List String :=
  (splitChar sep s.data).map (fun g => String.mk g)

/-- Model of Go `path/filepath.IsAbs` on Unix: the path starts with a
slash. -/
def goIsAbs (path : String) : Bool :=
  match path.data with
  | [] => false
  | c :: _ => c == '/'

/-- Element loop of Go `path/filepath.Clean` (Unix): drops empty and `.`
elements, resolves `..` against the output stack (a `..` at the root is
dropped; below the root it accumulates).  `acc` is the output stack,
most-recent element first. -/
def cleanAux (rooted : Bool) : List String → List String → List String
  | [], acc => acc.reverse
  | e :: rest, acc =>
    if e = "" || e = "." then
      cleanAux rooted rest acc
    else if e = ".." then
      match acc with
      | [] => if rooted then cleanAux rooted rest [] else cleanAux rooted rest [".."]
      | top :: pre =>
        if top = ".." then cleanAux rooted rest (".." :: top :: pre)
        else cleanAux rooted rest pre
    else
      cleanAux rooted rest (e :: acc)

/-- Model of Go `path/filepath.Clean` on Unix. -/
def goClean (path : String) : String :=
  if path = "" then "."
  else
    let rooted := goIsAbs path
    let parts := cleanAux rooted (goSplit path '/') []
    let out := String.intercalate "/" parts
    if rooted then "/" ++ out
    else if out = "" then "." else out

/-- Model of Go `path/filepath.Join` on Unix: join the elements from the
first non-empty one with slashes, then `Clean`; all-empty gives `""`. -/
def goJoin : List String → String
  | [] => ""
  | e :: rest =>
    if e = "" then goJoin rest
    else goClean (String.intercalate "/" (e :: rest))

/-- Model of Go `path/filepath.Abs`: an absolute path is cleaned; a
relative one is joined onto `os.Getwd`, whose failure is returned
unchanged. -/
def goAbs (env : Env) (path : String) : Except GoErr String :=
  if goIsAbs path then Except.ok (goClean path)
  else
    match env.getwd with
    | .ok wd => Except.ok (goJoin [wd, path])
    | .error e => Except.error e

/-- `Fusion5Driver` from the source: holds only the path to the
"VMware Fusion.app" bundle. -/
structure Fusion5Driver where
  AppPath : String
deriving DecidableEq, Repr

/-- Result of one driver operation: the Go return value, the subprocess
commands invoked during the call, and the receiver state after the call. -/
structure OpOut (α : Type) where
  ret : α
  trace : List Cmd
  drv : Fusion5Driver
deriving DecidableEq, Repr

/-- `vdiskManagerPath`: joins the app path with
`Contents/Library/vmware-vdiskmanager`. -/
def Fusion5Driver.vdiskManagerPath (d : Fusion5Driver) : String :=
  goJoin [d.AppPath, "Contents", "Library", "vmware-vdiskmanager"]

/-- `vmrunPath`: joins the app path with `Contents/Library/vmrun`. -/
def Fusion5Driver.vmrunPath (d : Fusion5Driver) : String :=
  goJoin [d.AppPath, "Contents", "Library", "vmrun"]

/-- `runAndLog`: runs the command, captures stdout and stderr, and returns
`(stdout, stderr, err)` with the `cmd.Run` error unchanged.  The log lines
it emits are a non-contractual side channel and are not modelled; the
second component records the invocation. -/
def Fusion5Driver.runAndLog (_d : Fusion5Driver) (env : Env) (cmd : Cmd) :
    (String × String × Option GoErr) × List Cmd :=
  let r := env.run cmd
  ((r.stdout, r.stderr, r.exit), [cmd])

/-- `CreateDisk(output, size)`: invokes the disk manager with
`-c -s <size> -a lsilogic -t 1 <output>` and returns its error, if any. -/
def Fusion5Driver.CreateDisk (d : Fusion5Driver) (env : Env)
    (output : String) (size : String) : OpOut (Option GoErr) :=
  let r := d.runAndLog env
    (Cmd.mk (d.vdiskManagerPath) ["-c", "-s", size, "-a", "lsilogic", "-t", "1", output])
  match r.1.2.2 with
  | some e => ⟨some e, r.2, d⟩
  | none => ⟨none, r.2, d⟩

/-- `IsRunning(vmxPath)`: resolves `vmxPath` with `filepath.Abs`, runs
`vmrun -T fusion list`, and reports whether any stdout line (split on
newline) equals the absolute path exactly. -/
def Fusion5Driver.IsRunning (d : Fusion5Driver) (env : Env)
    (vmxPath : String) : OpOut (Bool × Option GoErr) :=
  match goAbs env vmxPath with
  | .error e => ⟨(false, some e), [], d⟩
  | .ok vmxAbs =>
    let r := d.runAndLog env (Cmd.mk (d.vmrunPath) ["-T", "fusion", "list"])
    match r.1.2.2 with
    | some e => ⟨(false, some e), r.2, d⟩
    | none =>
      if (goSplit r.1.1 '\n').any (fun line => line == vmxAbs) then
        ⟨(true, none), r.2, d⟩
      else
        ⟨(false, none), r.2, d⟩

/-- `Start(vmxPath)`: invokes `vmrun -T fusion start <vmxPath> gui`. -/
def Fusion5Driver.Start (d : Fusion5Driver) (env : Env)
    (vmxPath : String) : OpOut (Option GoErr) :=
  let r := d.runAndLog env (Cmd.mk (d.vmrunPath) ["-T", "fusion", "start", vmxPath, "gui"])
  match r.1.2.2 with
  | some e => ⟨some e, r.2, d⟩
  | none => ⟨none, r.2, d⟩

/-- `Stop(vmxPath)`: invokes `vmrun -T fusion stop <vmxPath> hard`. -/
def Fusion5Driver.Stop (d : Fusion5Driver) (env : Env)
    (vmxPath : String) : OpOut (Option GoErr) :=
  let r := d.runAndLog env (Cmd.mk (d.vmrunPath) ["-T", "fusion", "stop", vmxPath, "hard"])
  match r.1.2.2 with
  | some e => ⟨some e, r.2, d⟩
  | none => ⟨none, r.2, d⟩

/-- `Verify()`: stats the app bundle, then `vmrun`, then the disk manager,
returning a descriptive error for a missing path (distinguished by
`os.IsNotExist`) and any other stat error unchanged.  No subprocess is
invoked. -/
def Fusion5Driver.Verify (d : Fusion5Driver) (env : Env) : OpOut (Option GoErr) :=
  match env.stat d.AppPath with
  | some e =>
    if e.isNotExist then
      ⟨some (GoErr.other ("Fusion application not found at path: " ++ d.AppPath)), [], d⟩
    else ⟨some e, [], d⟩
  | none =>
    match env.stat d.vmrunPath with
    | some e =>
      if e.isNotExist then
        ⟨some (GoErr.other
          ("Critical application \x27vmrun\x27 not found at path: " ++ d.vmrunPath)), [], d⟩
      else ⟨some e, [], d⟩
    | none =>
      match env.stat d.vdiskManagerPath with
      | some e =>
        if e.isNotExist then
          ⟨some (GoErr.other
            ("Critical application vdisk manager not found at path: " ++ d.vdiskManagerPath)), [], d⟩
        else ⟨some e, [], d⟩
      | none => ⟨none, [], d⟩

/-- Prefix test on character lists, used to define substring containment. -/
def listHasPre : List Char → List Char → Bool
  | [], _ => true
  | _ :: _, [] => false
  | n :: ns, h :: hs => n == h && listHasPre ns hs

/-- Substring search on character lists. -/
def listHasSub (needle : List Char) : List Char → Bool
  | [] => listHasPre needle []
  | h :: hs => listHasPre needle (h :: hs) || listHasSub needle hs

/-- `strContainsSub hay needle` holds when `needle` occurs contiguously in
`hay`; used to state "the error text contains the stderr text". -/
def strContainsSub (hay needle : String) : Bool :=
  listHasSub needle.data hay.data

/-- Concrete driver instance used by witnesses. -/
def fd0 : Fusion5Driver :=
  ⟨"/Applications/VMware Fusion.app"⟩

/-- Environment where every subprocess succeeds and `list` prints two
VMX paths. -/
def envList : Env :=
  ⟨fun _ => ⟨"/p/vm.vmx\n/other/vm.vmx", "", none⟩, fun _ => none, Except.ok "/wd"⟩

/-- Environment where `os.Getwd` fails. -/
def envNoWd : Env :=
  ⟨fun _ => ⟨"", "", none⟩, fun _ => none,
   Except.error (GoErr.other "getwd: no such file or directory")⟩

/-- Environment where every subprocess exits with status 1 and stderr
"disk full". -/
def envFail : Env :=
  ⟨fun _ => ⟨"", "disk full", some (GoErr.exitError 1)⟩, fun _ => none, Except.ok "/wd"⟩

/-- Environment where every stat succeeds. -/
def envAllOk : Env :=
  ⟨fun _ => ⟨"", "", none⟩, fun _ => none, Except.ok "/wd"⟩

/-- Environment where the app bundle is missing and everything else
exists. -/
def envNoApp : Env :=
  ⟨fun _ => ⟨"", "", none⟩,
   fun p => if p = "/Applications/VMware Fusion.app" then some (GoErr.notExist p) else none,
   Except.ok "/wd"⟩

/-- Environment where stat of the app bundle fails with a permission
error. -/
def envPerm : Env :=
  ⟨fun _ => ⟨"", "", none⟩,
   fun p => if p = "/Applications/VMware Fusion.app" then some (GoErr.permission p) else none,
   Except.ok "/wd"⟩


/-- Helper: two strings that differ at a character position lying inside
both fixed prefixes stay different after appending arbitrary suffixes. -/
theorem append_ne_of_early_char_ne (A B x y : String) (i : Nat)
    (hiA : i < A.data.length) (hiB : i < B.data.length)
    (hne : A.data[i]? ≠ B.data[i]?) : A ++ x ≠ B ++ y := by
  intro h
  apply hne
  have hdata : A.data ++ x.data = B.data ++ y.data := by
    have hd := congrArg String.data h
    simpa [String.data_append] using hd
  calc A.data[i]? = (A.data ++ x.data)[i]? := (List.getElem?_append_left hiA).symm
    _ = (B.data ++ y.data)[i]? := by rw [hdata]
    _ = B.data[i]? := List.getElem?_append_left hiB

/-- C2: CreateDisk invokes the disk-manager binary exactly once, with
exactly the arguments `-c -s <size> -a lsilogic -t 1 <outputPath>` in this
order and no others, for every output path and size. -/
theorem CreateDisk_invokes_exact_args (d : Fusion5Driver) (env : Env)
    (output size : String) :
    (d.CreateDisk env output size).trace =
      [Cmd.mk (d.vdiskManagerPath) ["-c", "-s", size, "-a", "lsilogic", "-t", "1", output]] := by
  dsimp only [Fusion5Driver.CreateDisk, Fusion5Driver.runAndLog]
  repeat first | rfl | split

/-- C4: Start invokes the runner binary with exactly
`-T fusion start <vmxPath> gui` and Stop with exactly
`-T fusion stop <vmxPath> hard`, each exactly once, for every caller-
supplied vmxPath; no other mode token is ever passed. -/
theorem Start_Stop_fixed_mode (d : Fusion5Driver) (env : Env) (vmxPath : String) :
    (d.Start env vmxPath).trace =
      [Cmd.mk (d.vmrunPath) ["-T", "fusion", "start", vmxPath, "gui"]] ∧
    (d.Stop env vmxPath).trace =
      [Cmd.mk (d.vmrunPath) ["-T", "fusion", "stop", vmxPath, "hard"]] := by
  constructor
  · dsimp only [Fusion5Driver.Start, Fusion5Driver.runAndLog]
    repeat first | rfl | split
  · dsimp only [Fusion5Driver.Stop, Fusion5Driver.runAndLog]
    repeat first | rfl | split

/-- C7: for every driver, the disk-manager path is the join of the app
path with `Contents/Library/vmware-vdiskmanager` and the runner path the
join with `Contents/Library/vmrun`; both are pure functions of the app
path alone (no caching, so two drivers with equal app paths resolve equal
binary paths on every call). -/
theorem binary_paths_fixed_join (d : Fusion5Driver) :
    d.vmrunPath = goJoin [d.AppPath, "Contents", "Library", "vmrun"] ∧
    d.vdiskManagerPath = goJoin [d.AppPath, "Contents", "Library", "vmware-vdiskmanager"] ∧
    (∀ d' : Fusion5Driver, d.AppPath = d'.AppPath →
      d.vmrunPath = d'.vmrunPath ∧ d.vdiskManagerPath = d'.vdiskManagerPath) := by
  refine ⟨rfl, rfl, fun d' h => ?_⟩
  unfold Fusion5Driver.vmrunPath Fusion5Driver.vdiskManagerPath
  rw [h]
  exact ⟨rfl, rfl⟩

/-- C7 witness: at the concrete driver, the resolved runner path is the
expected bundle-relative location, and equal app paths resolve equally. -/
theorem binary_paths_fixed_join_witness :
    fd0.vmrunPath = "/Applications/VMware Fusion.app/Contents/Library/vmrun" ∧
    fd0.vmrunPath = fd0.vmrunPath := by
  have h := binary_paths_fixed_join fd0
  exact ⟨h.1.trans rfl, (h.2.2 fd0 rfl).1⟩

/-- C9: no operation mutates the driver: after CreateDisk, IsRunning,
Start, Stop or Verify the receiver (hence its app path field) is the same
value as before the call, for every environment and input. -/
theorem operations_preserve_driver (d : Fusion5Driver) (env : Env)
    (output size vmx1 vmx2 vmx3 : String) :
    (d.CreateDisk env output size).drv = d ∧
    (d.IsRunning env vmx1).drv = d ∧
    (d.Start env vmx2).drv = d ∧
    (d.Stop env vmx3).drv = d ∧
    (d.Verify env).drv = d := by
  refine ⟨?_, ?_, ?_, ?_, ?_⟩
  · dsimp only [Fusion5Driver.CreateDisk, Fusion5Driver.runAndLog]
    repeat first | rfl | split
  · dsimp only [Fusion5Driver.IsRunning, Fusion5Driver.runAndLog]
    repeat first | rfl | split
  · dsimp only [Fusion5Driver.Start, Fusion5Driver.runAndLog]
    repeat first | rfl | split
  · dsimp only [Fusion5Driver.Stop, Fusion5Driver.runAndLog]
    repeat first | rfl | split
  · dsimp only [Fusion5Driver.Verify]
    repeat first | rfl | split

/-- C8: when absolute-path resolution of the VMX path fails, IsRunning
returns false together with that error unchanged and invokes no
subprocess. -/
theorem IsRunning_resolution_failure (d : Fusion5Driver) (env : Env)
    (vmxPath : String) (e : GoErr)
    (habs : goAbs env vmxPath = Except.error e) :
    d.IsRunning env vmxPath = ⟨(false, some e), [], d⟩ := by
  dsimp only [Fusion5Driver.IsRunning]
  rw [habs]

/-- C8 witness: with a failing working-directory lookup and a relative
VMX path, IsRunning surfaces the resolution error and runs nothing. -/
theorem IsRunning_resolution_failure_witness :
    fd0.IsRunning envNoWd "vm.vmx" =
      ⟨(false, some (GoErr.other "getwd: no such file or directory")), [], fd0⟩ :=
  IsRunning_resolution_failure fd0 envNoWd "vm.vmx"
    (GoErr.other "getwd: no such file or directory") rfl

/-- C1: when absolute-path resolution succeeds and the `list` subprocess
exits zero, IsRunning returns no error and returns true exactly when some
stdout line (split on newline) is string-equal to the resolved absolute
path; any line that differs at all (trailing whitespace, case, relative
form) does not count. -/
theorem IsRunning_exact_line_match (d : Fusion5Driver) (env : Env)
    (vmxPath vmxAbs : String)
    (habs : goAbs env vmxPath = Except.ok vmxAbs)
    (hrun : (env.run (Cmd.mk (d.vmrunPath) ["-T", "fusion", "list"])).exit = none) :
    ((d.IsRunning env vmxPath).ret.1 = true ↔
      vmxAbs ∈ goSplit (env.run (Cmd.mk (d.vmrunPath) ["-T", "fusion", "list"])).stdout '\n') ∧
    (d.IsRunning env vmxPath).ret.2 = none := by
  dsimp only [Fusion5Driver.IsRunning, Fusion5Driver.runAndLog]
  rw [habs]
  dsimp only
  rw [hrun]
  dsimp only
  by_cases hmem :
      vmxAbs ∈ goSplit (env.run (Cmd.mk (d.vmrunPath) ["-T", "fusion", "list"])).stdout '\n'
  · have hany : (goSplit (env.run (Cmd.mk (d.vmrunPath) ["-T", "fusion", "list"])).stdout '\n').any
        (fun line => line == vmxAbs) = true :=
      List.any_eq_true.mpr ⟨vmxAbs, hmem, by simp⟩
    simp [hany, hmem]
  · have hany : (goSplit (env.run (Cmd.mk (d.vmrunPath) ["-T", "fusion", "list"])).stdout '\n').any
        (fun line => line == vmxAbs) = false := by
      rw [List.any_eq_false]
      intro x hx
      simp only [beq_iff_eq]
      intro hxe
      exact hmem (hxe ▸ hx)
    simp [hany, hmem]

/-- C1 witness: against a list output of two lines, the exact absolute
path is reported as running with no error. -/
theorem IsRunning_exact_line_match_witness :
    ((fd0.IsRunning envList "/p/vm.vmx").ret.1 = true ↔
      "/p/vm.vmx" ∈ goSplit (envList.run (Cmd.mk (fd0.vmrunPath) ["-T", "fusion", "list"])).stdout '\n') ∧
    (fd0.IsRunning envList "/p/vm.vmx").ret.2 = none :=
  IsRunning_exact_line_match fd0 envList "/p/vm.vmx" "/p/vm.vmx" rfl rfl

/-- Helper: IsRunning either returns `(true, no error)` or its boolean is
false. -/
theorem isRunning_ret_cases (d : Fusion5Driver) (env : Env) (vmxPath : String) :
    (d.IsRunning env vmxPath).ret = (true, none) ∨
    (d.IsRunning env vmxPath).ret.1 = false := by
  dsimp only [Fusion5Driver.IsRunning, Fusion5Driver.runAndLog]
  split
  · right; rfl
  · split
    · right; rfl
    · split
      · left; rfl
      · right; rfl

/-- C10: IsRunning never reports true together with a non-nil error:
whenever the returned error is non-nil, the returned boolean is false. -/
theorem IsRunning_no_true_with_error (d : Fusion5Driver) (env : Env) (vmxPath : String)
    (h : (d.IsRunning env vmxPath).ret.2 ≠ none) :
    (d.IsRunning env vmxPath).ret.1 = false := by
  rcases isRunning_ret_cases d env vmxPath with hc | hc
  · exact absurd (by rw [hc]) h
  · exact hc

/-- C10 witness: with a failing path resolution, the error is non-nil and
the boolean is false. -/
theorem IsRunning_no_true_with_error_witness :
    (fd0.IsRunning envNoWd "vm.vmx").ret.1 = false :=
  IsRunning_no_true_with_error fd0 envNoWd "vm.vmx" (by decide)

/-- C5: Verify succeeds exactly when the stats of the bundle path, the
runner binary and the disk-manager binary all succeed, checking in that
order and stopping at the first failure; a missing bundle gives the
"application not found" message, a missing binary the "critical
component" message naming that binary, and the three messages are
pairwise distinct. -/
theorem Verify_classifies_missing_paths (d : Fusion5Driver) (env : Env) :
    ((d.Verify env).ret = none ↔
      env.stat d.AppPath = none ∧ env.stat d.vmrunPath = none ∧
        env.stat d.vdiskManagerPath = none) ∧
    (∀ e : GoErr, env.stat d.AppPath = some e → e.isNotExist = true →
      (d.Verify env).ret =
        some (GoErr.other ("Fusion application not found at path: " ++ d.AppPath))) ∧
    (∀ e : GoErr, env.stat d.AppPath = none → env.stat d.vmrunPath = some e →
      e.isNotExist = true →
      (d.Verify env).ret =
        some (GoErr.other
          ("Critical application \x27vmrun\x27 not found at path: " ++ d.vmrunPath))) ∧
    (∀ e : GoErr, env.stat d.AppPath = none → env.stat d.vmrunPath = none →
      env.stat d.vdiskManagerPath = some e → e.isNotExist = true →
      (d.Verify env).ret =
        some (GoErr.other
          ("Critical application vdisk manager not found at path: " ++ d.vdiskManagerPath))) ∧
    ("Fusion application not found at path: " ++ d.AppPath ≠
        "Critical application \x27vmrun\x27 not found at path: " ++ d.vmrunPath ∧
      "Fusion application not found at path: " ++ d.AppPath ≠
        "Critical application vdisk manager not found at path: " ++ d.vdiskManagerPath ∧
      "Critical application \x27vmrun\x27 not found at path: " ++ d.vmrunPath ≠
        "Critical application vdisk manager not found at path: " ++ d.vdiskManagerPath) := by
  refine ⟨⟨fun h => ?_, fun h => ?_⟩, fun e hA hNE => ?_, fun e hA hV hNE => ?_,
    fun e hA hV hD hNE => ?_, ?_, ?_, ?_⟩
  · rcases hA : env.stat d.AppPath with _ | eA
    · rcases hV : env.stat d.vmrunPath with _ | eV
      · rcases hD : env.stat d.vdiskManagerPath with _ | eD
        · exact ⟨rfl, rfl, rfl⟩
        · exfalso
          simp only [Fusion5Driver.Verify, hA, hV, hD] at h
          split at h <;> simp_all
      · exfalso
        simp only [Fusion5Driver.Verify, hA, hV] at h
        split at h <;> simp_all
    · exfalso
      simp only [Fusion5Driver.Verify, hA] at h
      split at h <;> simp_all
  · simp [Fusion5Driver.Verify, h.1, h.2.1, h.2.2]
  · simp [Fusion5Driver.Verify, hA, hNE]
  · simp [Fusion5Driver.Verify, hA, hV, hNE]
  · simp [Fusion5Driver.Verify, hA, hV, hD, hNE]
  · exact append_ne_of_early_char_ne _ _ _ _ 0 (by decide) (by decide) (by decide)
  · exact append_ne_of_early_char_ne _ _ _ _ 0 (by decide) (by decide) (by decide)
  · exact append_ne_of_early_char_ne _ _ _ _ 21 (by decide) (by decide) (by decide)

/-- C5 witness: with everything present Verify succeeds, and with only the
app bundle missing it returns the "application not found" message. -/
theorem Verify_classifies_missing_paths_witness :
    (fd0.Verify envAllOk).ret = none ∧
    (fd0.Verify envNoApp).ret =
      some (GoErr.other ("Fusion application not found at path: " ++ fd0.AppPath)) :=
  ⟨(Verify_classifies_missing_paths fd0 envAllOk).1.mpr ⟨rfl, rfl, rfl⟩,
   (Verify_classifies_missing_paths fd0 envNoApp).2.1 (GoErr.notExist fd0.AppPath) rfl rfl⟩

/-- C6: during Verify, a stat error that is not a not-exist error (for
example permission denied) is returned to the caller unchanged, at
whichever of the three checks it occurs, never reclassified as a "not
found" message. -/
theorem Verify_propagates_other_stat_errors (d : Fusion5Driver) (env : Env) (e : GoErr)
    (he : e.isNotExist = false) :
    (env.stat d.AppPath = some e → (d.Verify env).ret = some e) ∧
    (env.stat d.AppPath = none → env.stat d.vmrunPath = some e →
      (d.Verify env).ret = some e) ∧
    (env.stat d.AppPath = none → env.stat d.vmrunPath = none →
      env.stat d.vdiskManagerPath = some e → (d.Verify env).ret = some e) := by
  refine ⟨fun hA => ?_, fun hA hV => ?_, fun hA hV hD => ?_⟩ <;>
    simp [Fusion5Driver.Verify, he, *]

/-- C6 witness: a permission error on the app bundle stat is surfaced
verbatim by Verify. -/
theorem Verify_propagates_other_stat_errors_witness :
    (fd0.Verify envPerm).ret = some (GoErr.permission "/Applications/VMware Fusion.app") :=
  (Verify_propagates_other_stat_errors fd0 envPerm
    (GoErr.permission "/Applications/VMware Fusion.app") rfl).1 rfl

/-- C3 counterexample: with a subprocess that exits 1 after writing
"disk full" to stderr, CreateDisk returns the bare exit error, whose text
"exit status 1" does not contain the captured stderr text; the stderr is
only logged, never attached to the returned error. -/
theorem CreateDisk_error_lacks_stderr :
    (fd0.CreateDisk envFail "disk.vmdk" "40000").ret = some (GoErr.exitError 1) ∧
    (envFail.run (Cmd.mk (fd0.vdiskManagerPath)
      ["-c", "-s", "40000", "-a", "lsilogic", "-t", "1", "disk.vmdk"])).stderr = "disk full" ∧
    strContainsSub (GoErr.message (GoErr.exitError 1)) "disk full" = false :=
  ⟨rfl, rfl, by decide⟩

/-- C3 amended: whenever a subprocess exits non-zero, the operation
returns the subprocess's own error value unchanged (it does not wrap it or
attach the captured stderr, which goes only to the logs). -/
theorem subprocess_error_returned_unchanged (d : Fusion5Driver) (env : Env)
    (output size vmx1 vmx2 vmx3 : String) (e : GoErr) :
    ((env.run (Cmd.mk (d.vdiskManagerPath)
        ["-c", "-s", size, "-a", "lsilogic", "-t", "1", output])).exit = some e →
      (d.CreateDisk env output size).ret = some e) ∧
    ((env.run (Cmd.mk (d.vmrunPath) ["-T", "fusion", "start", vmx1, "gui"])).exit = some e →
      (d.Start env vmx1).ret = some e) ∧
    ((env.run (Cmd.mk (d.vmrunPath) ["-T", "fusion", "stop", vmx2, "hard"])).exit = some e →
      (d.Stop env vmx2).ret = some e) ∧
    (∀ p, goAbs env vmx3 = Except.ok p →
      (env.run (Cmd.mk (d.vmrunPath) ["-T", "fusion", "list"])).exit = some e →
      (d.IsRunning env vmx3).ret = (false, some e)) := by
  refine ⟨fun h => ?_, fun h => ?_, fun h => ?_, fun p hp h => ?_⟩
  · simp [Fusion5Driver.CreateDisk, Fusion5Driver.runAndLog, h]
  · simp [Fusion5Driver.Start, Fusion5Driver.runAndLog, h]
  · simp [Fusion5Driver.Stop, Fusion5Driver.runAndLog, h]
  · simp [Fusion5Driver.IsRunning, Fusion5Driver.runAndLog, hp, h]

/-- C3 amended witness: the failing disk-creation subprocess's exit error
comes back to the caller as-is. -/
theorem subprocess_error_returned_unchanged_witness :
    (fd0.CreateDisk envFail "disk.vmdk" "40000").ret = some (GoErr.exitError 1) :=
  (subprocess_error_returned_unchanged fd0 envFail "disk.vmdk" "40000"
    "a.vmx" "b.vmx" "c.vmx" (GoErr.exitError 1)).1 rfl
